import Mathlib

/-!
Verification development for the browser-use bridge service (`main.py`).

The file embeds, as executable Lean definitions, the parts of the service
that the specification talks about: the URL-derivation heuristic of the
Task Runner (including the exact Python character-class parsing behaviour
of its regular expression), the run lifecycle of `_run_browser_task`
over an abstract browser backend, the run registry (`run_task` /
`run_status`), the auth guard (`check_auth`), the proxy plumbing, the
profile store (`get_profile` / `delete_profile`), the HTTP route table,
and the session creation logic.  Theorems at the end settle the frozen
claims against these definitions.
-/

namespace Bridge

/-- Lifecycle phases written to a run's `status.json` by the service. -/
inductive Phase where
  | queued
  | starting
  | launchingBrowser
  | finished
  | error
deriving DecidableEq, Repr

/-- One record written to `status.json`: the phase plus the payload string
that accompanies it in the code (task text, target url, screenshot path or
error message). -/
structure StatusRec where
  phase : Phase
  detail : String
deriving DecidableEq, Repr

/-! ## The URL regex of `_extract_first_url`

`_extract_first_url` calls
`re.search(r"https?://[\w-.~:/?#\[\]@!$&'()*+,;=%]+", text)`.
Python compiles the pattern at call time.  We model CPython's
`re._parser` treatment of a character class: tokens are literals,
category escapes such as `\w`, or an unescaped hyphen; when an item is
followed by an unescaped hyphen and another item, the parser attempts a
range and raises `bad character range` unless both endpoints are single
literal characters. -/

/-- A token of a character-class body: a literal character, an unescaped
hyphen, or a one-letter category escape such as `\w`. -/
inductive ClassTok where
  | lit (c : Char)
  | dash
  | cat (c : Char)
deriving DecidableEq, Repr

/-- Tokenize the raw characters of a class body (the text between `[`
and `]`).  A backslash escapes the next character; `w`, `d`, `s` and
their upper-case forms are category escapes, any other escaped character
is a literal; an unescaped `-` is a potential range hyphen.  `none`
models a dangling backslash. -/
def tokenizeClassBody : List Char → Option (List ClassTok)
  | [] => some []
  | '\\' :: c :: rest =>
    let t := if c = 'w' ∨ c = 'd' ∨ c = 's' ∨ c = 'W' ∨ c = 'D' ∨ c = 'S' then
      ClassTok.cat c else ClassTok.lit c
    match tokenizeClassBody rest with
    | none => none
    | some ts => some (t :: ts)
  | ['\\'] => none
  | '-' :: rest =>
    match tokenizeClassBody rest with
    | none => none
    | some ts => some (ClassTok.dash :: ts)
  | c :: rest =>
    match tokenizeClassBody rest with
    | none => none
    | some ts => some (ClassTok.lit c :: ts)

/-- A parsed element of a character class: a literal, a character range,
or a category such as `\w`. -/
inductive SetItem where
  | litItem (c : Char)
  | rangeItem (lo hi : Char)
  | catItem (c : Char)
deriving DecidableEq, Repr

/-- The set element denoted by a single class token standing alone. -/
def itemOfTok : ClassTok → SetItem
  | .lit c => .litItem c
  | .dash => .litItem '-'
  | .cat c => .catItem c

/-- The range endpoint denoted by a token, when the token is a single
literal character (an unescaped hyphen also counts as the literal `-`);
a category escape is not a valid range endpoint. -/
def charOfTok : ClassTok → Option Char
  | .lit c => some c
  | .dash => some '-'
  | .cat _ => none

/-- CPython's class-item parse loop: an item followed by an unescaped
hyphen and a further item is a range attempt, which fails with
`bad character range` unless both endpoints are literals in order; a
hyphen directly before the closing bracket is a literal. -/
def parseClassItems : List ClassTok → Except String (List SetItem)
  | [] => .ok []
  | [t] => .ok [itemOfTok t]
  | [t, .dash] => .ok [itemOfTok t, .litItem '-']
  | t :: .dash :: u :: rest =>
    match t, charOfTok u with
    | .lit a, some b =>
      if b < a then .error "bad character range"
      else
        match parseClassItems rest with
        | .error e => .error e
        | .ok items => .ok (.rangeItem a b :: items)
    | _, _ => .error "bad character range"
  | t :: rest =>
    match parseClassItems rest with
    | .error e => .error e
    | .ok items => .ok (itemOfTok t :: items)

/-- The raw characters between `[` and `]` in the pattern
`https?://[\w-.~:/?#\[\]@!$&'()*+,;=%]+` of `_extract_first_url`
(`Char.ofNat 39` is the apostrophe). -/
def urlClassBody : List Char :=
  ['\\', 'w', '-', '.', '~', ':', '/', '?', '#', '\\', '[', '\\', ']',
   '@', '!', '$', '&', Char.ofNat 39, '(', ')', '*', '+', ',', ';', '=', '%']

/-- Compiling the character class of the URL pattern, as CPython does at
the first `re.search` call. -/
def compileUrlClass : Except String (List SetItem) :=
  match tokenizeClassBody urlClassBody with
  | none => .error "bad escape"
  | some ts => parseClassItems ts

/-- Whether a character is matched by one parsed set element (`\w` is
alphanumeric or underscore). -/
def setItemMatches (it : SetItem) (c : Char) : Bool :=
  match it with
  | .litItem a => c = a
  | .rangeItem a b => a ≤ c && c ≤ b
  | .catItem k => if k = 'w' then (c.isAlphanum || c = '_') else false

/-- Whether a character is in the parsed class. -/
def classMatches (items : List SetItem) (c : Char) : Bool :=
  items.any (fun it => setItemMatches it c)

/-- Match `https?://` followed by one or more class characters at the
start of `s`, returning the matched characters (longest match, as the
greedy `+` with nothing following it yields). -/
def matchUrlAt (items : List SetItem) (s : List Char) : Option (List Char) :=
  if s.take 8 = "https://".toList then
    let body := (s.drop 8).takeWhile (classMatches items)
    if body = [] then none else some ("https://".toList ++ body)
  else if s.take 7 = "http://".toList then
    let body := (s.drop 7).takeWhile (classMatches items)
    if body = [] then none else some ("http://".toList ++ body)
  else none

/-- `re.search` scan: the match at the leftmost position where one
exists. -/
def searchUrlChars (items : List SetItem) : List Char → Option (List Char)
  | [] => none
  | c :: rest =>
    match matchUrlAt items (c :: rest) with
    | some m => some m
    | none => searchUrlChars items rest

/-- `_extract_first_url(text)`: compiles the URL pattern and searches
`text`; a compile failure is a raised `re.error` (`Except.error`), a
successful search yields the matched substring or `None`. -/
def extractFirstUrl (text : String) : Except String (Option String) :=
  match compileUrlClass with
  | .error e => .error e
  | .ok items =>
    match searchUrlChars items text.toList with
    | some m => .ok (some (String.mk m))
    | none => .ok none

/-- Delete every occurrence of a character, as Python's
single-character `str.replace(old, "")` does. -/
def removeChar (x : Char) (l : List Char) : List Char :=
  l.filter (fun c => c ≠ x)

/-- Replace every occurrence of one character by another, as Python's
single-character `str.replace(old, new)` does. -/
def mapChar (x y : Char) (l : List Char) : List Char :=
  l.map (fun c => if c = x then y else c)

/-- The DuckDuckGo fallback of `_run_browser_task`: quotes removed from
the task text, the query appended to the fixed leading text, then every
space of the whole formatted URL replaced by `+`. -/
def searchUrl (task : String) : String :=
  String.mk (mapChar ' ' '+'
    ("https://duckduckgo.com/?q=".toList ++ removeChar '"' task.toList))

/-! ## The run lifecycle of `_run_browser_task`

The function's effectful browser primitives are abstracted by an oracle:
for each primitive, `none` means the awaited call returns normally and
`some msg` means it raises an exception whose `str(e)` is `msg`.  The
module-level availability flags `HAVE_BROWSER_USE` / `HAVE_PLAYWRIGHT`
are part of the oracle as well.  Filesystem writes (`write_status`,
`mkdir`, screenshot files) are modelled as the recorded trace; the
`write_status` helper swallows its own IO errors, so a write is simply a
trace element. -/

/-- Outcomes of the browser-use branch primitives: `browser.start()`,
`browser.new_page()`, `page.goto(url)`, `page.screenshot()` (covering
the bytes/str decoding subcases, all swallowed by the inner handler) and
`browser.stop()`. -/
structure BuOutcomes where
  startErr : Option String
  newPageErr : Option String
  gotoErr : Option String
  screenshotErr : Option String
  stopErr : Option String

/-- Outcomes of the playwright branch primitives: `chromium.launch`,
`browser.new_context`, `context.new_page`, `page.goto`,
`page.screenshot` (a failure that is not handled by the `TypeError`
fallback) and `browser.close`. -/
structure PwOutcomes where
  launchErr : Option String
  contextErr : Option String
  newPageErr : Option String
  gotoErr : Option String
  screenshotErr : Option String
  closeErr : Option String

/-- The abstract browser environment of one run: which backends import
successfully, and the outcome of each primitive call. -/
structure Backend where
  haveBrowserUse : Bool
  havePlaywright : Bool
  bu : BuOutcomes
  pw : PwOutcomes

/-- Result of executing the task body: the `write_status` trace, the
exception (if any) that propagated out of `_run_browser_task` uncaught,
whether a started browser-use browser is still running when the function
returns, and whether a screenshot artifact was persisted. -/
structure RunResult where
  writes : List StatusRec
  uncaught : Option String
  browserOpen : Bool
  screenshotSaved : Bool

/-- The browser-use branch (the `try` spanning profile construction,
`Browser(...)`, `start`, `new_page`, `goto`, the swallowed screenshot
attempt, the `finished` write and the swallowed `stop`); its `except`
writes phase `error` and returns without stopping the browser. -/
def runBu (o : BuOutcomes) : RunResult :=
  match o.startErr with
  | some e => ⟨[⟨.error, e⟩], none, false, false⟩
  | none =>
    match o.newPageErr with
    | some e => ⟨[⟨.error, e⟩], none, true, false⟩
    | none =>
      match o.gotoErr with
      | some e => ⟨[⟨.error, e⟩], none, true, false⟩
      | none =>
        ⟨[⟨.finished, "screenshot.png"⟩], none, o.stopErr.isSome,
          o.screenshotErr.isNone⟩

/-- The playwright branch: every primitive failure is caught by the
outer `except`, which writes phase `error`; leaving the
`async with async_playwright()` block stops the driver and with it any
browser it launched, so no branch exits with a running browser. -/
def runPw (o : PwOutcomes) : RunResult :=
  match o.launchErr with
  | some e => ⟨[⟨.error, e⟩], none, false, false⟩
  | none =>
    match o.contextErr with
    | some e => ⟨[⟨.error, e⟩], none, false, false⟩
    | none =>
      match o.newPageErr with
      | some e => ⟨[⟨.error, e⟩], none, false, false⟩
      | none =>
        match o.gotoErr with
        | some e => ⟨[⟨.error, e⟩], none, false, false⟩
        | none =>
          match o.screenshotErr with
          | some e => ⟨[⟨.error, e⟩], none, false, false⟩
          | none =>
            match o.closeErr with
            | some e => ⟨[⟨.error, e⟩], none, false, true⟩
            | none => ⟨[⟨.finished, "screenshot.png"⟩], none, false, true⟩

/-- The backend selection of `_run_browser_task`: the browser-use branch
when `HAVE_BROWSER_USE`, else the playwright branch when
`HAVE_PLAYWRIGHT`, else the terminal `no browser backend available`
error write. -/
def backendBranch (be : Backend) : RunResult :=
  if be.haveBrowserUse then runBu be.bu
  else if be.havePlaywright then runPw be.pw
  else ⟨[⟨.error, "no browser backend available"⟩], none, false, false⟩

/-- Lines 103-209 of `_run_browser_task`: the code from the
`launching_browser` status write onward, once a target URL has been
determined.  Working-directory `mkdir` calls are modelled as succeeding
filesystem operations. -/
def runFromUrl (url : String) (be : Backend) : RunResult :=
  ⟨⟨.launchingBrowser, url⟩ :: (backendBranch be).writes,
    (backendBranch be).uncaught, (backendBranch be).browserOpen,
    (backendBranch be).screenshotSaved⟩

/-- `_run_browser_task(task, ...)`: writes `starting`, derives the
target URL (outside every `try` block — an exception here propagates out
of the background task), then continues with `runFromUrl`. -/
def runBrowserTask (task : String) (be : Backend) : RunResult :=
  match extractFirstUrl task with
  | .error e => ⟨[⟨.starting, task⟩], some e, false, false⟩
  | .ok u =>
    let url := match u with
      | some s => s
      | none => searchUrl task
    let r := runFromUrl url be
    ⟨⟨.starting, task⟩ :: r.writes, r.uncaught, r.browserOpen,
      r.screenshotSaved⟩

/-! ## Run registry: `run_task` and `run_status` -/

/-- The on-disk registry: each run id maps to the current content of its
`status.json`, absent until first written. -/
def Registry := String → Option StatusRec

/-- Overwrite the status record of one run id (each `write_status`
replaces the whole file). -/
def regSet (r : Registry) (id : String) (v : StatusRec) : Registry :=
  fun j => if j = id then some v else r j

/-- `POST /run-task`: allocate a run directory, durably write the
initial `queued` record, and only then return the run id to the caller. -/
def runTaskCreate (r : Registry) (newId task : String) : Registry × String :=
  (regSet r newId ⟨.queued, task⟩, newId)

/-- `GET /runs/{run_id}/status`: the record if the status file exists,
else a 404. -/
def runStatus (r : Registry) (id : String) : Except Nat StatusRec :=
  match r id with
  | some rec => .ok rec
  | none => .error 404

/-- Whether a status fetch found a record. -/
def isFound : Except Nat StatusRec → Bool
  | .ok _ => true
  | .error _ => false

/-- The background task's status writes for a run, applied in order to
the registry. -/
def applyRunWrites (r : Registry) (id : String) (ws : List StatusRec) : Registry :=
  ws.foldl (fun acc w => regSet acc id w) r

/-! ## Auth guard: `check_auth` -/

/-- The characters after the first space of a header value, as
`auth.split(" ", 1)[1]` yields when a space exists. -/
def afterFirstSpace : List Char → List Char
  | [] => []
  | c :: rest => if c = ' ' then rest else afterFirstSpace rest

/-- `check_auth`: allow when `BRIDGE_API_KEY` is unset or empty (Python
falsiness); otherwise require an `Authorization` header of the form
`Bearer <token>` whose token, whitespace-stripped, equals the key; raise
HTTP 401 otherwise.  The function is pure apart from the raised status. -/
def checkAuth (key : Option String) (authHeader : Option String) : Except Nat Unit :=
  if key.getD "" = "" then .ok ()
  else
    match authHeader with
    | none => .error 401
    | some a =>
      if a.startsWith "Bearer " then
        if (String.mk (afterFirstSpace a.toList)).trim = key.getD "" then .ok ()
        else .error 401
      else .error 401

/-- Whether the code treats a secret as configured: the Python truth
test `if not BRIDGE_API_KEY` is false exactly when the variable is set
to a non-empty string. -/
def secretConfigured (key : Option String) : Bool :=
  !(key.getD "" == "")

/-- The bearer token presented by a request: the whitespace-stripped
token portion of an `Authorization: Bearer <token>` header, absent when
there is no header of that shape. -/
def presentedBearerToken (hdr : Option String) : Option String :=
  match hdr with
  | none => none
  | some a =>
    if a.startsWith "Bearer " then
      some ((String.mk (afterFirstSpace a.toList)).trim)
    else none

/-! ## Proxy plumbing -/

/-- The proxy descriptor of a request (`ProxyModel.dict()`): a required
server and optional username/password. -/
structure ProxyDict where
  server : String
  username : Option String
  password : Option String
deriving DecidableEq, Repr

/-- The `proxy` entry of the playwright launch kwargs. -/
structure LaunchProxy where
  server : String
  username : Option String
  password : Option String
deriving DecidableEq, Repr

/-- Python truthiness filter on an optional string: `if proxy.get(k):`
keeps the value only when it is present and non-empty. -/
def pyTruthyOpt (o : Option String) : Option String :=
  if o.getD "" = "" then none else o

/-- Lines 178-186: the playwright proxy kwargs always carry the server;
`username` and `password` are each added by its own independent truthy
test. -/
def playwrightLaunchProxy : Option ProxyDict → Option LaunchProxy
  | none => none
  | some pd => some ⟨pd.server, pyTruthyOpt pd.username, pyTruthyOpt pd.password⟩

/-- The argument record of the `ProxySettings(...)` construction in the
browser-use branch (lines 121-125). -/
structure ProxySettingsArgs where
  server : String
  username : Option String
  password : Option String
deriving DecidableEq, Repr

/-- Lines 121-125: the browser-use branch passes `server`, `username`
and `password` through unconditionally, including `None` values. -/
def buProxySettings (pd : ProxyDict) : ProxySettingsArgs :=
  ⟨pd.server, pd.username, pd.password⟩

/-! ## Profile store: `get_profile` and `delete_profile` -/

/-- The filesystem state of `PROFILES_DIR`: which profile directories
exist and for which ids a `<id>.zip` archive file exists. -/
structure ProfileStore where
  dirs : List String
  zips : List String
deriving DecidableEq, Repr

/-- `DELETE /profiles/{profile_id}`: 404 when the directory is missing;
otherwise remove the directory and any `<id>.zip` archive. -/
def deleteProfile (fs : ProfileStore) (pid : String) : Except Nat ProfileStore :=
  if pid ∈ fs.dirs then
    .ok ⟨fs.dirs.filter (fun d => d ≠ pid), fs.zips.filter (fun z => z ≠ pid)⟩
  else .error 404

/-- `GET /profiles/{profile_id}`: 404 when the directory is missing;
otherwise remove any stale archive, regenerate `<id>.zip` and return it. -/
def getProfile (fs : ProfileStore) (pid : String) : Except Nat (ProfileStore × String) :=
  if pid ∈ fs.dirs then
    .ok (⟨fs.dirs, pid :: fs.zips.filter (fun z => z ≠ pid)⟩, pid ++ ".zip")
  else .error 404

/-! ## HTTP route table and `/health` -/

/-- The method/path pairs registered on the FastAPI app by the
decorators of `main.py`. -/
def appRoutes : List (String × String) :=
  [("POST", "/health"),
   ("POST", "/run-task"),
   ("GET", "/runs/{run_id}/status"),
   ("GET", "/runs/{run_id}/screenshot"),
   ("POST", "/sessions"),
   ("GET", "/sessions/{sid}/live"),
   ("POST", "/sessions/{sid}/complete"),
   ("GET", "/profiles/{profile_id}"),
   ("DELETE", "/profiles/{profile_id}")]

/-- The `/health` handler: runs `check_auth` but catches its
`HTTPException` and returns the liveness body either way. -/
def health (key : Option String) (hdr : Option String) : Nat × String :=
  match checkAuth key hdr with
  | .ok _ => (200, "ok")
  | .error _ => (200, "ok")

/-! ## Session creation -/

/-- `POST /sessions`: the task text handed to the background
`_run_browser_task` is `profile_id or 'interactive-session'` (Python
`or`, so an empty string also selects the default). -/
def sessionTaskText (profileId : Option String) : String :=
  match profileId with
  | some p => if p = "" then "interactive-session" else p
  | none => "interactive-session"

/-! ## Phase ordering -/

/-- Position of a phase in the lifecycle order; `finished` and `error`
are the two terminal phases at the same depth. -/
def phaseRank : Phase → Nat
  | .queued => 0
  | .starting => 1
  | .launchingBrowser => 2
  | .finished => 3
  | .error => 3

/-- Whether a phase is terminal. -/
def isTerminal : Phase → Bool
  | .finished => true
  | .error => true
  | .queued => false
  | .starting => false
  | .launchingBrowser => false

/-- A phase sequence is admissible when each step is non-decreasing in
rank and no phase follows a terminal one. -/
def phasesMonotone : List Phase → Bool
  | [] => true
  | [_] => true
  | a :: b :: rest =>
    Nat.ble (phaseRank a) (phaseRank b) && !(isTerminal a) &&
      phasesMonotone (b :: rest)

/-! ## Helper lemmas -/

lemma runBu_phases (o : BuOutcomes) :
    (runBu o).writes.map StatusRec.phase = [Phase.error] ∨
    (runBu o).writes.map StatusRec.phase = [Phase.finished] := by
  rcases o with ⟨s, np, g, sc, st⟩
  cases s <;> cases np <;> cases g <;>
    first
      | exact Or.inl rfl
      | exact Or.inr rfl

lemma runBu_uncaught (o : BuOutcomes) : (runBu o).uncaught = none := by
  rcases o with ⟨s, np, g, sc, st⟩
  cases s <;> cases np <;> cases g <;> rfl

lemma runPw_phases (o : PwOutcomes) :
    (runPw o).writes.map StatusRec.phase = [Phase.error] ∨
    (runPw o).writes.map StatusRec.phase = [Phase.finished] := by
  rcases o with ⟨l, c, np, g, sc, cl⟩
  cases l <;> cases c <;> cases np <;> cases g <;> cases sc <;> cases cl <;>
    first
      | exact Or.inl rfl
      | exact Or.inr rfl

lemma runPw_uncaught (o : PwOutcomes) : (runPw o).uncaught = none := by
  rcases o with ⟨l, c, np, g, sc, cl⟩
  cases l <;> cases c <;> cases np <;> cases g <;> cases sc <;> cases cl <;> rfl

lemma backendBranch_phases (be : Backend) :
    (backendBranch be).writes.map StatusRec.phase = [Phase.error] ∨
    (backendBranch be).writes.map StatusRec.phase = [Phase.finished] := by
  unfold backendBranch
  cases h1 : be.haveBrowserUse
  · cases h2 : be.havePlaywright
    · simp only [Bool.false_eq_true, if_false]
      exact Or.inl rfl
    · simp only [Bool.false_eq_true, if_false, if_true]
      exact runPw_phases be.pw
  · simp only [if_true]
    exact runBu_phases be.bu

lemma backendBranch_uncaught (be : Backend) :
    (backendBranch be).uncaught = none := by
  unfold backendBranch
  cases h1 : be.haveBrowserUse
  · cases h2 : be.havePlaywright
    · simp only [Bool.false_eq_true, if_false]
    · simp only [Bool.false_eq_true, if_false, if_true]
      exact runPw_uncaught be.pw
  · simp only [if_true]
    exact runBu_uncaught be.bu

lemma applyRunWrites_isSome (id : String) :
    ∀ (ws : List StatusRec) (r : Registry), (r id).isSome = true →
      ((applyRunWrites r id ws) id).isSome = true := by
  intro ws
  induction ws with
  | nil => intro r h; exact h
  | cons w tl ih =>
    intro r h
    have hstep : applyRunWrites r id (w :: tl) = applyRunWrites (regSet r id w) id tl := rfl
    rw [hstep]
    apply ih
    simp [regSet]

end Bridge

namespace Bridge

/-! ## Claim theorems -/

/-- Claim C1: the claim says the Task Runner uses a URL-shaped substring
of the task verbatim, else a deterministic search URL with quotes
removed and spaces replaced by `+`.  The code cannot do either: the
character class of the URL pattern is an invalid Python regex (the range
attempt `\w-.` raises `bad character range`), so `_extract_first_url`
raises `re.error` on every input, the example task never yields
`https://example.com`, and a run's background task dies after writing
only `starting`.  The search-URL string itself is synthesized as the
claim describes, but it is never reached. -/
theorem c1_url_regex_always_raises :
    (∀ t : String, extractFirstUrl t = .error "bad character range") ∧
    extractFirstUrl "go to https://example.com and read the title" ≠
      .ok (some "https://example.com") ∧
    (runBrowserTask "find cheapest flights to Tokyo"
        ⟨true, true, ⟨none, none, none, none, none⟩,
          ⟨none, none, none, none, none, none⟩⟩).writes.map StatusRec.phase =
      [Phase.starting] ∧
    searchUrl "find cheapest flights to Tokyo" =
      "https://duckduckgo.com/?q=find+cheapest+flights+to+Tokyo" := by
  refine ⟨fun t => rfl, ?_, rfl, by decide⟩
  intro h
  rw [show extractFirstUrl "go to https://example.com and read the title" =
    Except.error "bad character range" from rfl] at h
  exact Except.noConfusion h

/-- Claim C2 counterexample: for a concrete run (task
`find cheapest flights to Tokyo`, both backends available and healthy)
the exception raised during URL derivation — a step after `starting` —
is not caught: it propagates out of the background task and no `error`
phase is ever recorded, refuting the claim as stated. -/
theorem c2_counterexample :
    (runBrowserTask "find cheapest flights to Tokyo"
        ⟨true, true, ⟨none, none, none, none, none⟩,
          ⟨none, none, none, none, none, none⟩⟩).uncaught =
      some "bad character range" ∧
    Phase.error ∉
      ((runBrowserTask "find cheapest flights to Tokyo"
        ⟨true, true, ⟨none, none, none, none, none⟩,
          ⟨none, none, none, none, none, none⟩⟩).writes.map StatusRec.phase) := by
  exact ⟨rfl, by decide⟩

/-- Claim C2 as amended: only exceptions raised inside the backend `try`
blocks (browser acquisition, navigation, capture) are caught —
`runFromUrl` never lets one propagate — while the steps between
`starting` and those blocks are unprotected; with the shipped regex the
URL-derivation step raises on every input, so every run's background
task dies with an uncaught exception after writing only `starting`. -/
theorem c2_amended_error_capture :
    (∀ (task : String) (be : Backend),
      (runBrowserTask task be).writes = [⟨Phase.starting, task⟩] ∧
      (runBrowserTask task be).uncaught = some "bad character range") ∧
    (∀ (url : String) (be : Backend), (runFromUrl url be).uncaught = none) := by
  constructor
  · intro task be
    exact ⟨rfl, rfl⟩
  · intro url be
    exact backendBranch_uncaught be

/-- Claim C3: the claim (and the spec) say the acquired browser is
always released before the Task Runner returns.  In the browser-use
branch a navigation failure is caught by the outer handler, which writes
phase `error` and returns without calling `browser.stop()`: the browser
is left running.  The contrasting conjuncts show the success path does
stop it, and that the run ends in phase `error` as the spec's
failure-semantics sentence expects. -/
theorem c3_navigation_failure_leaks_browser :
    (runFromUrl "https://example.com"
        ⟨true, true, ⟨none, none, some "net::ERR_CONNECTION_REFUSED", none, none⟩,
          ⟨none, none, none, none, none, none⟩⟩).browserOpen = true ∧
    (runFromUrl "https://example.com"
        ⟨true, true, ⟨none, none, some "net::ERR_CONNECTION_REFUSED", none, none⟩,
          ⟨none, none, none, none, none, none⟩⟩).writes.map StatusRec.phase =
      [Phase.launchingBrowser, Phase.error] ∧
    (runFromUrl "https://example.com"
        ⟨true, true, ⟨none, none, none, none, none⟩,
          ⟨none, none, none, none, none, none⟩⟩).browserOpen = false := by
  exact ⟨rfl, rfl, rfl⟩

/-- Claim C4: the sequence of phases written for a run — the `queued`
record written by `run_task` followed by everything `_run_browser_task`
writes — is monotonically non-decreasing along
queued, starting, launching_browser, finished/error, and nothing is
written after a terminal phase; this holds for the actual runs (which
stop at `starting`) and for every behaviour of the post-derivation code
over any backend outcome. -/
theorem c4_phase_monotonicity :
    (∀ (task : String) (be : Backend),
      phasesMonotone
        (Phase.queued :: (runBrowserTask task be).writes.map StatusRec.phase) = true) ∧
    (∀ (url : String) (be : Backend),
      phasesMonotone
        (Phase.queued :: Phase.starting ::
          (runFromUrl url be).writes.map StatusRec.phase) = true) := by
  constructor
  · intro task be
    rfl
  · intro url be
    have h : (runFromUrl url be).writes.map StatusRec.phase =
        Phase.launchingBrowser :: (backendBranch be).writes.map StatusRec.phase := rfl
    rw [h]
    rcases backendBranch_phases be with hb | hb <;> rw [hb] <;> decide

/-- Claim C5: `run_task` durably writes the initial `queued` record
before returning the run id, and the background task only ever
overwrites that same record, so a status fetch for a returned id never
observes not-found: immediately after creation it reads exactly the
`queued` record, and after any sequence of background writes it still
finds a record. -/
theorem c5_created_run_never_not_found :
    (∀ (r : Registry) (id task : String) (ws : List StatusRec),
      isFound (runStatus (applyRunWrites (runTaskCreate r id task).1 id ws) id) = true) ∧
    (∀ (r : Registry) (id task : String),
      runStatus (runTaskCreate r id task).1 id = .ok ⟨Phase.queued, task⟩) := by
  constructor
  · intro r id task ws
    have h0 : ((runTaskCreate r id task).1 id).isSome = true := by
      simp [runTaskCreate, regSet]
    have h := applyRunWrites_isSome id ws (runTaskCreate r id task).1 h0
    cases hx : (applyRunWrites (runTaskCreate r id task).1 id ws) id with
    | none => rw [hx] at h; simp at h
    | some v => unfold runStatus; rw [hx]; rfl
  · intro r id task
    unfold runStatus runTaskCreate regSet
    simp

/-- Claim C6: the auth guard allows a request exactly when no secret is
configured (unset or empty `BRIDGE_API_KEY`, Python falsiness) or the
presented bearer token — the whitespace-stripped token of a
Authorization header starting with `Bearer ` — equals the secret;
in every other case it raises exactly HTTP 401.  The guard is a pure
predicate with no other effect. -/
theorem c6_auth_guard_iff :
    ∀ (key hdr : Option String),
      (checkAuth key hdr = .ok () ↔
        (secretConfigured key = false ∨
          presentedBearerToken hdr = some (key.getD ""))) ∧
      (checkAuth key hdr = .ok () ∨ checkAuth key hdr = .error 401) := by
  intro key hdr
  by_cases hk : key.getD "" = ""
  · constructor
    · simp [checkAuth, secretConfigured, hk]
    · left
      simp [checkAuth, hk]
  · cases hdr with
    | none =>
      constructor
      · simp [checkAuth, secretConfigured, presentedBearerToken, hk]
      · right
        simp [checkAuth, hk]
    | some a =>
      by_cases hb : a.startsWith "Bearer "
      · by_cases ht : (String.mk (afterFirstSpace a.data)).trim = key.getD ""
        · constructor
          · simp [checkAuth, secretConfigured, presentedBearerToken, hk, hb, ht]
          · left
            simp [checkAuth, hk, hb, ht]
        · constructor
          · simp [checkAuth, secretConfigured, presentedBearerToken, hk, hb, ht]
          · right
            simp [checkAuth, hk, hb, ht]
      · constructor
        · simp [checkAuth, secretConfigured, presentedBearerToken, hk, hb]
        · right
          simp [checkAuth, hk, hb]

/-- Claim C6 witness: the guard instantiated at a configured secret and
a matching bearer header. -/
theorem c6_auth_guard_iff_witness :
    (checkAuth (some "s3cret") (some "Bearer s3cret") = .ok () ↔
      (secretConfigured (some "s3cret") = false ∨
        presentedBearerToken (some "Bearer s3cret") =
          some ((some "s3cret").getD ""))) ∧
    (checkAuth (some "s3cret") (some "Bearer s3cret") = .ok () ∨
      checkAuth (some "s3cret") (some "Bearer s3cret") = .error 401) :=
  c6_auth_guard_iff (some "s3cret") (some "Bearer s3cret")

/-- Claim C7 counterexample: a proxy descriptor with a username and no
password is not passed server-only — the playwright launch kwargs carry
the username — refuting the claim that credentials are forwarded only
when both are supplied. -/
theorem c7_counterexample :
    (playwrightLaunchProxy
        (some ⟨"http://proxy.example:8080", some "user1", none⟩)).map
      LaunchProxy.username = some (some "user1") ∧
    ¬((playwrightLaunchProxy
        (some ⟨"http://proxy.example:8080", some "user1", none⟩)).map
      LaunchProxy.username = some none) := by
  exact ⟨rfl, by decide⟩

/-- Claim C7 as amended: the playwright launch kwargs always carry the
server, and include username and password each by its own independent
truthiness test (so a username without a password is forwarded together
with the server); the browser-use branch passes server, username and
password through unconditionally, including absent values. -/
theorem c7_proxy_fields_independent :
    (∀ pd : ProxyDict,
      playwrightLaunchProxy (some pd) =
        some ⟨pd.server, pyTruthyOpt pd.username, pyTruthyOpt pd.password⟩) ∧
    playwrightLaunchProxy none = none ∧
    (∀ pd : ProxyDict, buProxySettings pd = ⟨pd.server, pd.username, pd.password⟩) := by
  exact ⟨fun pd => rfl, rfl, fun pd => rfl⟩

/-- Claim C8: deleting an existing profile removes its directory and any
generated archive, after which an archive fetch for that id returns 404;
deleting a non-existent profile id returns 404. -/
theorem c8_delete_profile :
    ∀ (fs : ProfileStore) (pid : String),
      (pid ∈ fs.dirs →
        ∃ fs2, deleteProfile fs pid = .ok fs2 ∧ pid ∉ fs2.dirs ∧
          pid ∉ fs2.zips ∧ getProfile fs2 pid = .error 404) ∧
      (pid ∉ fs.dirs → deleteProfile fs pid = .error 404) := by
  intro fs pid
  constructor
  · intro h
    have hd : pid ∉ fs.dirs.filter (fun d => d ≠ pid) := by
      simp [List.mem_filter]
    have hz : pid ∉ fs.zips.filter (fun z => z ≠ pid) := by
      simp [List.mem_filter]
    refine ⟨⟨fs.dirs.filter (fun d => d ≠ pid), fs.zips.filter (fun z => z ≠ pid)⟩,
      ?_, hd, hz, ?_⟩
    · simp [deleteProfile, h]
    · simp [getProfile, hd]
  · intro h
    simp [deleteProfile, h]

/-- Claim C8 witness: a store holding profile `p1` with a generated
archive, and the miss case for an id with no directory. -/
theorem c8_delete_profile_witness :
    (∃ fs2, deleteProfile ⟨["p1"], ["p1"]⟩ "p1" = .ok fs2 ∧ "p1" ∉ fs2.dirs ∧
      "p1" ∉ fs2.zips ∧ getProfile fs2 "p1" = .error 404) ∧
    deleteProfile (⟨[], []⟩ : ProfileStore) "p2" = .error 404 :=
  ⟨(c8_delete_profile ⟨["p1"], ["p1"]⟩ "p1").1 (by decide),
   (c8_delete_profile ⟨[], []⟩ "p2").2 (by decide)⟩

/-- Claim C9 counterexample: the app registers `/health` for POST only;
there is no GET route for it, so a GET request is not served by the
handler (FastAPI answers 405), refuting the both-methods claim. -/
theorem c9_counterexample : ("GET", "/health") ∉ appRoutes := by decide

/-- Claim C9 as amended: `/health` is registered for POST only, and the
POST handler returns the liveness response for every auth configuration
and presented token, because it catches the auth guard's exception. -/
theorem c9_health_post_only :
    ("POST", "/health") ∈ appRoutes ∧ ("GET", "/health") ∉ appRoutes ∧
    ∀ (key hdr : Option String), health key hdr = (200, "ok") := by
  refine ⟨by decide, by decide, ?_⟩
  intro key hdr
  unfold health
  cases checkAuth key hdr <;> rfl

/-- Claim C10: the session's task text is indeed the supplied profile id
(default `interactive-session`), but the derived-target consequence
fails: for a profile id with no URL-shaped substring the session never
navigates to a search URL, because URL derivation raises on every input
(invalid regex) before any navigation, leaving the record at `starting`
with no `launching_browser` write. -/
theorem c10_session_task_text_no_navigation :
    sessionTaskText (some "myprofile") = "myprofile" ∧
    sessionTaskText none = "interactive-session" ∧
    (runBrowserTask "myprofile"
        ⟨true, true, ⟨none, none, none, none, none⟩,
          ⟨none, none, none, none, none, none⟩⟩).uncaught =
      some "bad character range" ∧
    Phase.launchingBrowser ∉
      ((runBrowserTask "myprofile"
        ⟨true, true, ⟨none, none, none, none, none⟩,
          ⟨none, none, none, none, none, none⟩⟩).writes.map StatusRec.phase) := by
  exact ⟨rfl, rfl, rfl, by decide⟩

end Bridge
